import Mathlib

/-!
Verification development for the civic-issues backend (`src/api/src/index.ts`).

The backend keeps two in-memory tables (`users`, `issues`), modelled here as
association lists with JavaScript-object update semantics: setting a key that
is already present replaces the value in place, setting a fresh key appends,
and `Object.values` is the list of values in storage order.  Timestamps
(`Date.now()`) are naturals counting milliseconds; each handler takes the
current time as an explicit argument.  JavaScript string falsiness (absent or
empty) is modelled by `strFalsy` on `Option String`.
-/

set_option autoImplicit false

namespace CivicIssues

/-- Roles, from `type Role = 'User' | 'Admin'`. -/
inductive Role where
  | user
  | admin
deriving DecidableEq

/-- User records, from `type User`.  `email`/`aadhaar`/`language` are optional
fields of the record (`none` = absent, mirroring `undefined`). -/
structure User where
  id : String
  email : Option String
  aadhaar : Option String
  password : String
  role : Role
  language : Option String
deriving DecidableEq

/-- Media kinds, from `type Media = { type: 'photo' | 'video' | 'audio'; ... }`. -/
inductive MediaKind where
  | photo
  | video
  | audio
deriving DecidableEq

/-- Media attachments, from `type Media`. -/
structure Media where
  type : MediaKind
  data : String
deriving DecidableEq

/-- Issue statuses, from `type IssueStatus`. -/
inductive IssueStatus where
  | Reported
  | Verified
  | Assigned
  | Resolved
  | Spam
deriving DecidableEq

/-- Priorities, from `type Priority = 'Low' | 'Medium' | 'High'`. -/
inductive Priority where
  | Low
  | Medium
  | High
deriving DecidableEq

/-- Issue records, from `type Issue`.  Geolocation coordinates play no role in
any backend computation, so they are carried as an opaque pair of integers. -/
structure Issue where
  id : String
  userId : String
  category : String
  description : String
  priority : Priority
  department : Option String
  emergency : Bool
  status : IssueStatus
  location : Option (Int × Int)
  media : Option Media
  voice : Option Media
  createdAt : Nat
  updatedAt : Nat
deriving DecidableEq

/-! ### JavaScript-object store semantics -/

/-- Lookup in a `Record<string, α>`: the value at the first matching key. -/
def getKey {α : Type} : List (String × α) → String → Option α
  | [], _ => none
  | p :: ps, k => if p.1 = k then some p.2 else getKey ps k

/-- Assignment `obj[k] = v` on a `Record<string, α>`: replace in place if the
key is present, otherwise append (JavaScript property insertion order). -/
def setKey {α : Type} : List (String × α) → String → α → List (String × α)
  | [], k, v => [(k, v)]
  | p :: ps, k, v => if p.1 = k then (k, v) :: ps else p :: setKey ps k v

/-- `Object.values(obj)`: the values in storage order. -/
def valuesOf {α : Type} (m : List (String × α)) : List α :=
  m.map (fun p => p.2)

abbrev UserStore := List (String × User)
abbrev IssueStore := List (String × Issue)

/-! ### Identifiers and tokens

`Date.now().toString(36)` renders the clock in base 36 with digits
`0-9a-z`; tokens are the template string `dev-${id}` and are read back with
`token.slice(4)` after a `startsWith('dev-')` check. -/

/-- One base-36 digit character, lowercase as in `Number.prototype.toString`. -/
def base36digit (n : Nat) : Char :=
  if n < 10 then Char.ofNat (48 + n) else Char.ofNat (87 + n)

/-- Fuel-driven base-36 digit expansion (most significant digit first). -/
def natToBase36Go : Nat → Nat → List Char
  | 0, _ => []
  | fuel + 1, n =>
    if n < 36 then [base36digit n]
    else natToBase36Go fuel (n / 36) ++ [base36digit (n % 36)]

/-- `n.toString(36)`. -/
def natToBase36 (n : Nat) : String :=
  String.mk (natToBase36Go (n + 1) n)

/-- Numeric value of a base-36 digit character (inverse of `base36digit`). -/
def base36DigitVal (c : Char) : Nat :=
  if c.toNat < 58 then c.toNat - 48 else c.toNat - 87

/-- Numeric value of a base-36 digit string (used to invert `natToBase36`). -/
def base36Val : List Char → Nat
  | [] => 0
  | c :: cs => base36DigitVal c * 36 ^ cs.length + base36Val cs

/-- The token marker `'dev-'`. -/
def devMark : String := "dev-"

/-- `token.startsWith('dev-')`. -/
def startsWithDev (t : String) : Bool :=
  t.data.take 4 = devMark.data

/-- `token.slice(4)`. -/
def tokenUserId (t : String) : String :=
  String.mk (t.data.drop 4)

/-- The template string `dev-${id}`. -/
def mkToken (id : String) : String :=
  String.mk (devMark.data ++ id.data)

/-- Acceptance test of the `POST /issues` token guard:
`!token || typeof token !== 'string' || !token.startsWith('dev-')` rejects. -/
def tokenAccepted : Option String → Bool
  | none => false
  | some t => startsWithDev t

/-! ### JavaScript string falsiness -/

/-- Falsiness of an optional string field: absent or empty. -/
def strFalsy : Option String → Bool
  | none => true
  | some s => s = ""

/-! ### Media Authenticity Gate (`verifyMediaHeuristic`) -/

/-- Single-character split, as `String.prototype.split(',')`: the list of
(possibly empty) segments between occurrences of the separator. -/
def splitOnChar (sep : Char) : List Char → List (List Char)
  | [] => [[]]
  | c :: cs =>
    match splitOnChar sep cs with
    | [] => [[]]
    | t :: ts => if c = sep then [] :: t :: ts else (c :: t) :: ts

/-- The comma separating a data-URL header from its base64 payload. -/
def commaChar : Char := ','

/-- The base64 payload `media.data.split(',')[1] ?? ''` taken by the gate. -/
def mediaPayload (d : String) : List Char :=
  (splitOnChar commaChar d.data).getD 1 []

/-- `Math.ceil(base64.length * 3 / 4)`: the gate's decoded-size estimate. -/
def decodedSizeBytes (m : Media) : Nat :=
  ((mediaPayload m.data).length * 3 + 3) / 4

/-- Rejection reason for absent media. -/
def noMediaReason : String := "No media"

/-- Rejection reason for undersized photos. -/
def tooSmallReason : String := "Image too small"

/-- Result record of `verifyMediaHeuristic`. -/
structure VerifyResult where
  isGenuine : Bool
  reason : Option String
deriving DecidableEq

/-- `verifyMediaHeuristic`: absent media is rejected; a photo whose decoded
payload size is below 10,000 bytes is rejected; everything else is genuine.
(The `try/catch` in the source cannot fire: no operation in the body throws.) -/
def verifyMediaHeuristic (media : Option Media) : VerifyResult :=
  match media with
  | none => { isGenuine := false, reason := some noMediaReason }
  | some m =>
    if m.type = MediaKind.photo ∧ decodedSizeBytes m < 10000 then
      { isGenuine := false, reason := some tooSmallReason }
    else
      { isGenuine := true, reason := none }

/-! ### Auth handlers -/

/-- Body of `POST /auth/signup` (all fields optional at the HTTP boundary). -/
structure SignupReq where
  email : Option String
  aadhaar : Option String
  password : Option String
  role : Option Role
  language : Option String
deriving DecidableEq

/-- Outcome of `POST /auth/signup`. -/
inductive SignupResult where
  | badRequest
  | ok (token : String) (userId : String)
deriving DecidableEq

/-- The guard `(!email && !aadhaar) || !password || !role` passes. -/
def signupValid (body : SignupReq) : Bool :=
  !((strFalsy body.email && strFalsy body.aadhaar) || strFalsy body.password
    || body.role.isNone)

/-- The User record stored by signup at clock `now`. -/
def mkSignupUser (body : SignupReq) (now : Nat) : User :=
  { id := natToBase36 now
    email := body.email
    aadhaar := body.aadhaar
    password := body.password.getD ""
    role := body.role.getD Role.user
    language := body.language }

/-- `POST /auth/signup`: validate, store the user under `Date.now().toString(36)`,
return the token `dev-${id}`. -/
def signup (users : UserStore) (body : SignupReq) (now : Nat) :
    SignupResult × UserStore :=
  if signupValid body then
    let u := mkSignupUser body now
    (SignupResult.ok (mkToken u.id) u.id, setKey users u.id u)
  else
    (SignupResult.badRequest, users)

/-- The login predicate
`(u.email === identifier || u.aadhaar === identifier) && u.password === password`.
Strict equality between an optional field and an optional body value is
equality of `Option String`; the stored password is always a string, so it
matches only a present body password of the same value. -/
def userMatches (u : User) (identifier password : Option String) : Bool :=
  (u.email = identifier ∨ u.aadhaar = identifier) ∧ password = some u.password

/-- Outcome of `POST /auth/login`. -/
inductive LoginResult where
  | invalid
  | ok (token : String) (userId : String)
deriving DecidableEq

/-- `POST /auth/login`: the first stored user matching identifier and password,
or a 401. -/
def login (users : UserStore) (identifier password : Option String) : LoginResult :=
  match (valuesOf users).find? (fun u => userMatches u identifier password) with
  | none => LoginResult.invalid
  | some u => LoginResult.ok (mkToken u.id) u.id

/-! ### Issue handlers -/

/-- Body of `POST /issues`. -/
structure CreateReq where
  description : Option String
  category : Option String
  priority : Option Priority
  emergency : Option Bool
  location : Option (Int × Int)
  media : Option Media
  voice : Option Media
  department : Option String
deriving DecidableEq

/-- Outcome of `POST /issues`. -/
inductive CreateResult where
  | unauthorized
  | badRequest
  | ok (issue : Issue)
deriving DecidableEq

/-- The issue stored by `POST /issues` at clock `now` for user `userId`. -/
def mkNewIssue (userId : String) (body : CreateReq) (now : Nat) : Issue :=
  { id := natToBase36 now
    userId := userId
    category := body.category.getD "Other"
    description := body.description.getD ""
    priority := body.priority.getD Priority.Low
    emergency := body.emergency.getD false
    status := if (verifyMediaHeuristic body.media).isGenuine
              then IssueStatus.Reported else IssueStatus.Spam
    location := body.location
    media := body.media
    voice := body.voice
    department := body.department
    createdAt := now
    updatedAt := now }

/-- `POST /issues`: token guard, required-field guard, gate, store. -/
def postIssues (token : Option String) (body : CreateReq) (now : Nat)
    (issues : IssueStore) : CreateResult × IssueStore :=
  if tokenAccepted token then
    match token with
    | none => (CreateResult.unauthorized, issues)
    | some t =>
      if strFalsy body.description || body.priority.isNone then
        (CreateResult.badRequest, issues)
      else
        let issue := mkNewIssue (tokenUserId t) body now
        (CreateResult.ok issue, setKey issues issue.id issue)
  else
    (CreateResult.unauthorized, issues)

/-- The issue carried by a `CreateResult.ok`. -/
def createdIssue : CreateResult → Option Issue
  | CreateResult.ok i => some i
  | _ => none

/-- Body of `PATCH /issues/:id`: `status`/`priority` apply when truthy,
`department` applies whenever it is not `undefined`. -/
structure PatchReq where
  status : Option IssueStatus
  department : Option String
  priority : Option Priority
deriving DecidableEq

/-- Outcome of `PATCH /issues/:id`. -/
inductive PatchResult where
  | notFound
  | ok (issue : Issue)
deriving DecidableEq

/-- Field updates of `PATCH /issues/:id` applied to the existing record. -/
def applyPatch (existing : Issue) (body : PatchReq) (now : Nat) : Issue :=
  let a := match body.status with
    | some st => { existing with status := st }
    | none => existing
  let b := match body.department with
    | some d => { a with department := some d }
    | none => a
  let c := match body.priority with
    | some p => { b with priority := p }
    | none => b
  { c with updatedAt := now }

/-- `PATCH /issues/:id`: 404 on an unknown id, otherwise update in place. -/
def patchIssues (issues : IssueStore) (id : String) (body : PatchReq) (now : Nat) :
    PatchResult × IssueStore :=
  match getKey issues id with
  | none => (PatchResult.notFound, issues)
  | some existing =>
    let updated := applyPatch existing body now
    (PatchResult.ok updated, setKey issues id updated)

/-- Query of `GET /issues` (timestamps already parsed to naturals). -/
structure ListQuery where
  category : Option String
  status : Option String
  priority : Option String
  fromTs : Option Nat
  toTs : Option Nat
deriving DecidableEq

/-- Rendering of a status for the `i.status === status` query comparison. -/
def statusString : IssueStatus → String
  | IssueStatus.Reported => "Reported"
  | IssueStatus.Verified => "Verified"
  | IssueStatus.Assigned => "Assigned"
  | IssueStatus.Resolved => "Resolved"
  | IssueStatus.Spam => "Spam"

/-- Rendering of a priority for the `i.priority === priority` query comparison. -/
def priorityString : Priority → String
  | Priority.Low => "Low"
  | Priority.Medium => "Medium"
  | Priority.High => "High"

/-- `GET /issues`: `Object.values(issues)` then the conjunctive filters, each
applied only when its query value is truthy (`0` is falsy for the bounds). -/
def listIssues (issues : IssueStore) (q : ListQuery) : List Issue :=
  let l0 := valuesOf issues
  let l1 := match q.category with
    | some c => if c ≠ "" then l0.filter (fun i => i.category = c) else l0
    | none => l0
  let l2 := match q.status with
    | some st => if st ≠ "" then l1.filter (fun i => statusString i.status = st) else l1
    | none => l1
  let l3 := match q.priority with
    | some p => if p ≠ "" then l2.filter (fun i => priorityString i.priority = p) else l2
    | none => l2
  let l4 := match q.fromTs with
    | some t => if t ≠ 0 then l3.filter (fun i => t ≤ i.createdAt) else l3
    | none => l3
  match q.toTs with
  | some t => if t ≠ 0 then l4.filter (fun i => i.createdAt ≤ t) else l4
  | none => l4

/-- The empty query: no filters supplied. -/
def noFilterQuery : ListQuery :=
  { category := none, status := none, priority := none, fromTs := none, toTs := none }

/-! ### Escalation Scheduler -/

/-- `7 * 24 * 60 * 60 * 1000` milliseconds. -/
def oneWeekMs : Nat := 7 * 24 * 60 * 60 * 1000

/-- The default escalation department. -/
def commissionerName : String := "Commissioner"

/-- `issue.department || 'Commissioner'`: a falsy department (absent or the
empty string) is replaced by the default. -/
def orCommissioner : Option String → Option String
  | none => some commissionerName
  | some d => if d = "" then some commissionerName else some d

/-- Per-issue action of one scheduler tick: a non-Resolved issue strictly older
than one week is forced to `Assigned`, given a department if it lacked a truthy
one, and restamped; every other issue is untouched. -/
def escalateIssue (now : Nat) (issue : Issue) : Issue :=
  if issue.status ≠ IssueStatus.Resolved ∧ oneWeekMs < now - issue.createdAt then
    { issue with
        status := IssueStatus.Assigned
        department := orCommissioner issue.department
        updatedAt := now }
  else
    issue

/-- One tick of the `setInterval` escalation scan over the whole store. -/
def escalationTick (now : Nat) (issues : IssueStore) : IssueStore :=
  issues.map (fun p => (p.1, escalateIssue now p.2))

/-! ### Operations over time (for the timestamp invariants) -/

/-- One mutating operation against the issue store. -/
inductive Op where
  | create (token : Option String) (body : CreateReq)
  | patch (id : String) (body : PatchReq)
  | tick
deriving DecidableEq

/-- Apply one operation at clock `now`. -/
def applyOp (now : Nat) (op : Op) (s : IssueStore) : IssueStore :=
  match op with
  | Op.create token body => (postIssues token body now s).2
  | Op.patch id body => (patchIssues s id body now).2
  | Op.tick => escalationTick now s

/-- Timestamp sanity of a store at clock `now`: every issue has
`createdAt ≤ updatedAt` and was last touched no later than `now`. -/
def timeOK (now : Nat) (s : IssueStore) : Bool :=
  s.all (fun p => decide (p.2.createdAt ≤ p.2.updatedAt) && decide (p.2.updatedAt ≤ now))

/-- Recency ordering of a result list: each issue was created no earlier than
every issue after it. -/
def mostRecentFirst (l : List Issue) : Prop :=
  List.Pairwise (fun a b => b.createdAt ≤ a.createdAt) l

/-! ### Concrete requests, stores and runs used in witnesses and counterexamples -/

/-- A token of the shape the handler accepts. -/
def devTokA : String := "dev-u1"

/-- A minimal well-formed creation request (no media). -/
def baseCreateReq : CreateReq :=
  { description := some "pothole on 5th"
    category := none
    priority := some Priority.Medium
    emergency := none
    location := none
    media := none
    voice := none
    department := none }

/-- A short video attachment (the gate size-checks only photos). -/
def smallVideo : Media := { type := MediaKind.video, data := "x" }

/-- A photo whose payload decodes to fewer than 10,000 bytes. -/
def smallPhoto : Media := { type := MediaKind.photo, data := "data:image/png;base64,QUJD" }

/-- The creation request carrying the small video. -/
def vidCreateReq : CreateReq := { baseCreateReq with media := some smallVideo }

/-- The id assigned to a creation at clock 0. -/
def zeroId : String := natToBase36 0

/-- An id that is never assigned in the concrete runs below. -/
def xyzId : String := "xyz"

/-- Fallback record for `Option.getD` extractions. -/
def dummyIssue : Issue := mkNewIssue "u0" baseCreateReq 0

/-- A patch that sets status Resolved and nothing else. -/
def pResolved : PatchReq :=
  { status := some IssueStatus.Resolved, department := none, priority := none }

/-- A patch that sets status Reported and nothing else. -/
def pReported : PatchReq :=
  { status := some IssueStatus.Reported, department := none, priority := none }

/-- The store after one creation at clock 0. -/
def storeOne : IssueStore := (postIssues (some devTokA) baseCreateReq 0 []).2

/-- `storeOne` after its issue is resolved at clock 1. -/
def storeOneResolved : IssueStore := (patchIssues storeOne zeroId pResolved 1).2

/-- The resolved record held by `storeOneResolved`. -/
def resolvedIssueA : Issue := (getKey storeOneResolved zeroId).getD dummyIssue

/-- A data string without a comma (longer than one base64 quantum). -/
def noCommaData : String := "aGVsbG8gd29ybGQgdGhpcyBpcyBhIGxvbmcgcGF5bG9hZA"

/-- A second distinct creation request. -/
def c2SecondReq : CreateReq := { baseCreateReq with description := some "garbage heap" }

/-- The store after creations at clocks 0 and 1 (in that order). -/
def c2Store : IssueStore := (postIssues (some devTokA) c2SecondReq 1 storeOne).2

/-- The patch run that moves the resolved issue of `storeOneResolved` back to
Reported at clock 2. -/
def c3AfterPatch : PatchResult × IssueStore :=
  patchIssues storeOneResolved zeroId pReported 2

/-- A creation request that assigns the empty string as department. -/
def c4CreateReq : CreateReq := { baseCreateReq with department := some "" }

/-- The store holding one issue created at clock 0 with department `""`. -/
def c4Store : IssueStore := (postIssues (some devTokA) c4CreateReq 0 []).2

/-- `c4Store` after a tick one millisecond past the staleness window. -/
def c4Tick : IssueStore := escalationTick (oneWeekMs + 1) c4Store

/-- The record held by `c4Store`. -/
def c4IssueA : Issue := (getKey c4Store zeroId).getD dummyIssue

/-- An email used by the signup scenarios. -/
def c5Mail : String := "a@b.example"

/-- A password used by the signup scenarios. -/
def c5Pw : String := "pw123"

/-- A valid signup payload (email identifier). -/
def c5Sig : SignupReq :=
  { email := some c5Mail
    aadhaar := none
    password := some c5Pw
    role := some Role.user
    language := none }

/-- The user table after one signup with `c5Sig` at clock 0. -/
def c5Users1 : UserStore := (signup [] c5Sig 0).2

/-- A second signup with the same payload at clock 1. -/
def c5Run2 : SignupResult × UserStore := signup c5Users1 c5Sig 1

/-- The id assigned to a signup at clock 1. -/
def oneId : String := natToBase36 1

/-- A well-formed token whose user id names no stored User. -/
def ghostToken : String := "dev-ghost"

/-- Creation against an empty issue store with the ghost token. -/
def ghostRun : CreateResult × IssueStore :=
  postIssues (some ghostToken) baseCreateReq 0 []

/-- The issue created by `ghostRun`. -/
def ghostIssue : Issue := (createdIssue ghostRun.1).getD dummyIssue

/-- The record held by `storeOne`. -/
def storeOneIssue : Issue := (getKey storeOne zeroId).getD dummyIssue

/-- A creation at clock 5 against the empty store. -/
def c9Run1 : CreateResult × IssueStore := postIssues (some devTokA) baseCreateReq 5 []

/-- A second creation in the same millisecond, with a different description. -/
def c9Run2 : CreateResult × IssueStore := postIssues (some devTokA) c2SecondReq 5 c9Run1.2

/-- The id assigned to a creation at clock 5. -/
def fiveId : String := natToBase36 5

/-- The record held by `c9Run1`'s store. -/
def c9StoredIssue : Issue := (getKey c9Run1.2 fiveId).getD dummyIssue

/-! ## Store lemmas -/

theorem getKey_setKey_self {α : Type} (m : List (String × α)) (k : String) (v : α) :
    getKey (setKey m k v) k = some v := by
  induction m with
  | nil => simp [setKey, getKey]
  | cons p ps ih =>
    by_cases h : p.1 = k
    · simp [setKey, getKey, h]
    · simp [setKey, getKey, h, ih]

theorem getKey_setKey_ne {α : Type} (m : List (String × α)) (k k' : String) (v : α)
    (h : k' ≠ k) : getKey (setKey m k v) k' = getKey m k' := by
  have hk : k ≠ k' := Ne.symm h
  induction m with
  | nil => simp [setKey, getKey, hk]
  | cons p ps ih =>
    by_cases hp : p.1 = k
    · simp [setKey, getKey, hp, hk, ih]
    · simp [setKey, getKey, hp, ih]

theorem setKey_of_getKey_none {α : Type} (m : List (String × α)) (k : String) (v : α)
    (h : getKey m k = none) : setKey m k v = m ++ [(k, v)] := by
  induction m with
  | nil => rfl
  | cons p ps ih =>
    simp only [getKey] at h
    by_cases hp : p.1 = k
    · rw [if_pos hp] at h
      exact absurd h (by simp)
    · rw [if_neg hp] at h
      simp [setKey, hp, ih h]

theorem getKey_append_left {α : Type} (m l : List (String × α)) (k : String) (v : α)
    (h : getKey m k = some v) : getKey (m ++ l) k = some v := by
  induction m with
  | nil => simp [getKey] at h
  | cons p ps ih =>
    simp only [getKey] at h ⊢
    by_cases hp : p.1 = k
    · rwa [if_pos hp] at h ⊢
    · rw [if_neg hp] at h ⊢
      exact ih h

theorem mem_setKey {α : Type} {m : List (String × α)} {k : String} {v : α}
    {p : String × α} (h : p ∈ setKey m k v) : p ∈ m ∨ p = (k, v) := by
  induction m with
  | nil => simpa [setKey] using h
  | cons q qs ih =>
    by_cases hq : q.1 = k
    · simp only [setKey, if_pos hq] at h
      rcases List.mem_cons.mp h with h1 | h1
      · exact Or.inr h1
      · exact Or.inl (List.mem_cons_of_mem _ h1)
    · simp only [setKey, if_neg hq] at h
      rcases List.mem_cons.mp h with h1 | h1
      · exact Or.inl (h1 ▸ List.mem_cons_self q qs)
      · rcases ih h1 with h2 | h2
        · exact Or.inl (List.mem_cons_of_mem _ h2)
        · exact Or.inr h2

theorem mem_valuesOf_setKey {α : Type} {m : List (String × α)} {k : String} {v u : α}
    (h : u ∈ valuesOf (setKey m k v)) : u ∈ valuesOf m ∨ u = v := by
  rcases List.mem_map.mp h with ⟨p, hp, hu⟩
  rcases mem_setKey hp with h1 | h1
  · exact Or.inl (hu ▸ List.mem_map_of_mem _ h1)
  · exact Or.inr (by rw [← hu, h1])

theorem self_mem_valuesOf_setKey {α : Type} (m : List (String × α)) (k : String) (v : α) :
    v ∈ valuesOf (setKey m k v) := by
  induction m with
  | nil => simp [setKey, valuesOf]
  | cons p ps ih =>
    by_cases hp : p.1 = k
    · simp [setKey, valuesOf, hp]
    · simp only [setKey, if_neg hp, valuesOf, List.map_cons]
      exact List.mem_cons_of_mem _ ih

theorem getKey_map_issue (f : Issue → Issue) (m : IssueStore) (k : String) :
    getKey (m.map (fun p => (p.1, f p.2))) k = (getKey m k).map f := by
  induction m with
  | nil => rfl
  | cons p ps ih =>
    by_cases hp : p.1 = k
    · simp [getKey, hp]
    · simp [getKey, hp, ih]

/-! ## Gate lemmas -/

theorem splitOnChar_of_not_mem (sep : Char) (l : List Char) (h : sep ∉ l) :
    splitOnChar sep l = [l] := by
  induction l with
  | nil => rfl
  | cons c cs ih =>
    have hc : c ≠ sep := fun e => h (e ▸ List.mem_cons_self c cs)
    have hcs : sep ∉ cs := fun m => h (List.mem_cons_of_mem _ m)
    simp [splitOnChar, ih hcs, hc]

/-! ## Base-36 identifier lemmas -/

theorem base36DigitVal_base36digit : ∀ n : Nat, n < 36 →
    base36DigitVal (base36digit n) = n := by decide

theorem base36Val_append (l : List Char) (c : Char) :
    base36Val (l ++ [c]) = base36Val l * 36 + base36DigitVal c := by
  induction l with
  | nil => simp [base36Val]
  | cons d l ih =>
    show base36Val (d :: (l ++ [c])) = base36Val (d :: l) * 36 + base36DigitVal c
    rw [base36Val, base36Val, ih, List.length_append]
    simp only [List.length_cons, List.length_nil, pow_succ]
    ring

theorem base36Val_natToBase36Go : ∀ fuel n : Nat, n < fuel →
    base36Val (natToBase36Go fuel n) = n := by
  intro fuel
  induction fuel with
  | zero => intro n h; exact absurd h (Nat.not_lt_zero n)
  | succ fuel ih =>
    intro n h
    by_cases h36 : n < 36
    · simp [natToBase36Go, h36, base36Val, base36DigitVal_base36digit n h36]
    · have hpos : 0 < n := by omega
      have hdiv : n / 36 < n := Nat.div_lt_self hpos (by omega)
      have hfuel : n / 36 < fuel := by omega
      rw [natToBase36Go, if_neg h36, base36Val_append, ih (n / 36) hfuel,
        base36DigitVal_base36digit (n % 36) (Nat.mod_lt n (by omega))]
      omega

theorem natToBase36_injective {a b : Nat} (h : natToBase36 a = natToBase36 b) :
    a = b := by
  have hd : natToBase36Go (a + 1) a = natToBase36Go (b + 1) b :=
    congrArg String.data h
  have hv := congrArg base36Val hd
  rwa [base36Val_natToBase36Go _ _ (Nat.lt_succ_self a),
    base36Val_natToBase36Go _ _ (Nat.lt_succ_self b)] at hv

/-! ## Token lemmas -/

theorem tokenUserId_mkToken (id : String) : tokenUserId (mkToken id) = id := by
  have h4 : devMark.data.length = 4 := rfl
  cases id with
  | mk l =>
    show String.mk ((devMark.data ++ l).drop 4) = String.mk l
    rw [← h4, List.drop_left]

/-! ## C1 -/

/-- C1: for every creation request with a valid token and with description and
priority present: absent media yields status Spam; a photo whose decoded
payload size is below 10,000 bytes yields Spam; present media whose decoded
size is at least 10,000 bytes, or whose kind is not photo, yields Reported. -/
theorem C1_creation_status (t : String) (body : CreateReq) (now : Nat) (s : IssueStore)
    (htok : startsWithDev t = true)
    (hdesc : strFalsy body.description = false)
    (hprio : body.priority.isNone = false) :
    (body.media = none →
      (createdIssue (postIssues (some t) body now s).1).map Issue.status
        = some IssueStatus.Spam) ∧
    (∀ m : Media, body.media = some m → m.type = MediaKind.photo →
      decodedSizeBytes m < 10000 →
      (createdIssue (postIssues (some t) body now s).1).map Issue.status
        = some IssueStatus.Spam) ∧
    (∀ m : Media, body.media = some m →
      (m.type ≠ MediaKind.photo ∨ 10000 ≤ decodedSizeBytes m) →
      (createdIssue (postIssues (some t) body now s).1).map Issue.status
        = some IssueStatus.Reported) := by
  have hres : (postIssues (some t) body now s).1
      = CreateResult.ok (mkNewIssue (tokenUserId t) body now) := by
    simp [postIssues, tokenAccepted, htok, hdesc, hprio]
  refine ⟨?_, ?_, ?_⟩
  · intro hm
    simp [hres, createdIssue, mkNewIssue, verifyMediaHeuristic, hm]
  · intro m hm hphoto hsize
    simp [hres, createdIssue, mkNewIssue, verifyMediaHeuristic, hm, hphoto, hsize]
  · intro m hm hcase
    have hcond : ¬(m.type = MediaKind.photo ∧ decodedSizeBytes m < 10000) := by
      rcases hcase with h1 | h1
      · exact fun hc => h1 hc.1
      · exact fun hc => absurd hc.2 (Nat.not_lt.mpr h1)
    simp [hres, createdIssue, mkNewIssue, verifyMediaHeuristic, hm, hcond]

/-- Witness for C1: a concrete creation request carrying a small video is
accepted by the gate, so the created issue's status is Reported. -/
theorem C1_creation_status_witness :
    (createdIssue (postIssues (some devTokA) vidCreateReq 0 []).1).map Issue.status
      = some IssueStatus.Reported := by
  have h := C1_creation_status devTokA vidCreateReq 0 [] (by decide) (by decide) (by decide)
  exact h.2.2 smallVideo rfl (Or.inl (by decide))

/-! ## C7 -/

/-- C7: PATCH on an issue id that is not in the store returns not-found and
leaves the whole store unchanged, so no record is created under that id. -/
theorem C7_patch_unknown_id (issues : IssueStore) (id : String) (body : PatchReq)
    (now : Nat) (h : getKey issues id = none) :
    patchIssues issues id body now = (PatchResult.notFound, issues) := by
  simp [patchIssues, h]

/-- Witness for C7: patching the unused id `xyz` on a one-issue store. -/
theorem C7_patch_unknown_id_witness :
    patchIssues storeOne xyzId pReported 5 = (PatchResult.notFound, storeOne) :=
  C7_patch_unknown_id storeOne xyzId pReported 5 (by decide)

/-! ## C10 -/

/-- C10: for a photo whose data string contains no comma, the gate's payload
(the text after the first comma) is empty, its decoded size is 0, and the
photo is rejected with reason Image too small, however long the data is. -/
theorem C10_no_comma_rejected (d : String) (h : commaChar ∉ d.data) :
    mediaPayload d = [] ∧
    decodedSizeBytes { type := MediaKind.photo, data := d } = 0 ∧
    verifyMediaHeuristic (some { type := MediaKind.photo, data := d })
      = { isGenuine := false, reason := some tooSmallReason } := by
  have hp : mediaPayload d = [] := by
    simp [mediaPayload, splitOnChar_of_not_mem commaChar d.data h]
  refine ⟨hp, ?_, ?_⟩
  · simp [decodedSizeBytes, hp]
  · simp [verifyMediaHeuristic, decodedSizeBytes, hp]

/-- Witness for C10: a concrete 46-character comma-free data string. -/
theorem C10_no_comma_rejected_witness :
    verifyMediaHeuristic (some { type := MediaKind.photo, data := noCommaData })
      = { isGenuine := false, reason := some tooSmallReason } :=
  (C10_no_comma_rejected noCommaData (by decide)).2.2

/-! ## C2 -/

/-- C2 counterexample: after creations at clocks 0 and 1, the unfiltered list
is in insertion order (the older issue first), not most-recent-first. -/
theorem C2_counterexample :
    (listIssues c2Store noFilterQuery).map Issue.createdAt = [0, 1] ∧
    ¬ mostRecentFirst (listIssues c2Store noFilterQuery) := by
  have hmap : (listIssues c2Store noFilterQuery).map Issue.createdAt = [0, 1] := by decide
  refine ⟨hmap, fun h => ?_⟩
  have hm : ((listIssues c2Store noFilterQuery).map Issue.createdAt).Pairwise
      (fun x y => y ≤ x) := List.pairwise_map.mpr h
  rw [hmap] at hm
  have h10 : (1 : Nat) ≤ 0 :=
    (List.pairwise_cons.mp hm).1 1 (List.mem_cons_self 1 [])
  omega

/-- C2 amended: list with no filters supplied returns every issue currently
stored, in storage (insertion) order — oldest creation first, not
most-recent-first. -/
theorem C2_list_no_filters (s : IssueStore) :
    listIssues s noFilterQuery = valuesOf s := rfl

/-! ## C3 -/

/-- C3 counterexample: an issue whose status is Resolved is moved back to
Reported by a later PATCH, so there is a transition out of Resolved. -/
theorem C3_counterexample :
    (getKey storeOneResolved zeroId).map Issue.status = some IssueStatus.Resolved ∧
    (getKey c3AfterPatch.2 zeroId).map Issue.status = some IssueStatus.Reported := by
  decide

/-- C3 amended: the escalation tick never changes a Resolved issue in any way;
but updateStatus (PATCH) may overwrite a Resolved issue with any status
(administrator override), so Resolved is terminal only for the scheduler. -/
theorem C3_resolved_terminal (now : Nat) (s : IssueStore) (id : String) (i : Issue)
    (h : getKey s id = some i) (hres : i.status = IssueStatus.Resolved) :
    getKey (escalationTick now s) id = some i ∧
    ∀ (st : IssueStatus) (body : PatchReq) (nowP : Nat), body.status = some st →
      (patchIssues s id body nowP).1 = PatchResult.ok (applyPatch i body nowP) ∧
      (applyPatch i body nowP).status = st := by
  constructor
  · rw [escalationTick, getKey_map_issue, h]
    simp [escalateIssue, hres]
  · intro st body nowP hst
    constructor
    · simp [patchIssues, h]
    · cases hdep : body.department <;> cases hpri : body.priority <;>
        simp [applyPatch, hst, hdep, hpri]

/-- Witness for C3 at the concrete resolved store: the tick leaves the record
untouched while a PATCH back to Reported goes through. -/
theorem C3_resolved_terminal_witness :
    getKey (escalationTick (oneWeekMs + 1) storeOneResolved) zeroId
      = some resolvedIssueA ∧
    (patchIssues storeOneResolved zeroId pReported 2).1
      = PatchResult.ok (applyPatch resolvedIssueA pReported 2) := by
  have h := C3_resolved_terminal (oneWeekMs + 1) storeOneResolved zeroId resolvedIssueA
    (by decide) (by decide)
  exact ⟨h.1, (h.2 IssueStatus.Reported pReported 2 rfl).1⟩

/-! ## C4 -/

/-- C4 counterexample: an issue whose department was already assigned — the
empty string — still has it replaced by Commissioner on escalation, so the
replacement is not restricted to issues with no assigned department. -/
theorem C4_counterexample :
    (getKey c4Store zeroId).map Issue.department = some (some "") ∧
    some ("" : String) ≠ (none : Option String) ∧
    (getKey c4Tick zeroId).map Issue.department = some (some commissionerName) := by
  decide

/-- C4 amended: on a tick, every issue whose status is not Resolved and whose
age exceeds 7 days gets status Assigned, department Commissioner exactly when
its department was absent or the empty string (a nonempty department is kept),
and updatedAt set to now; every other issue is left completely unchanged. -/
theorem C4_escalation_tick (now : Nat) (s : IssueStore) (id : String) (i : Issue)
    (h : getKey s id = some i) :
    (i.status ≠ IssueStatus.Resolved → oneWeekMs < now - i.createdAt →
      getKey (escalationTick now s) id = some
        { i with status := IssueStatus.Assigned
                 department := orCommissioner i.department
                 updatedAt := now } ∧
      (i.department = none ∨ i.department = some "" →
        orCommissioner i.department = some commissionerName) ∧
      (∀ d : String, i.department = some d → d ≠ "" →
        orCommissioner i.department = some d)) ∧
    (i.status = IssueStatus.Resolved ∨ now - i.createdAt ≤ oneWeekMs →
      getKey (escalationTick now s) id = some i) := by
  constructor
  · intro hst hage
    refine ⟨?_, ?_, ?_⟩
    · rw [escalationTick, getKey_map_issue, h]
      simp [escalateIssue, hst, hage]
    · rintro (hd | hd) <;> simp [orCommissioner, hd]
    · intro d hd hdne
      simp [orCommissioner, hd, hdne]
  · intro hcase
    rw [escalationTick, getKey_map_issue, h]
    rcases hcase with hres | hage
    · simp [escalateIssue, hres]
    · simp [escalateIssue, Nat.not_lt.mpr hage]

/-- Witness for C4 at the concrete store: the stale Spam issue with empty
department is escalated to Assigned with department Commissioner. -/
theorem C4_escalation_tick_witness :
    getKey c4Tick zeroId = some
      { c4IssueA with status := IssueStatus.Assigned
                      department := orCommissioner c4IssueA.department
                      updatedAt := oneWeekMs + 1 } ∧
    orCommissioner c4IssueA.department = some commissionerName := by
  have h := (C4_escalation_tick (oneWeekMs + 1) c4Store zeroId c4IssueA
    (by decide)).1 (by decide) (by decide)
  exact ⟨h.1, h.2.1 (Or.inr (by decide))⟩

/-! ## C5 -/

/-- C5 counterexample: two signups with the same email and password; the
second signup returns id 1, but a login with that identifier and secret
resolves to the FIRST user's id 0 — not the id the second signup returned. -/
theorem C5_counterexample :
    c5Run2.1 = SignupResult.ok (mkToken oneId) oneId ∧
    login c5Run2.2 (some c5Mail) (some c5Pw) = LoginResult.ok (mkToken zeroId) zeroId ∧
    zeroId ≠ oneId := by
  decide

/-- C5 amended: for every valid signup, provided no already-stored user
matches the same identifier and secret, a subsequent login with that
identifier and secret succeeds and returns the signup's token `dev-` + id,
which resolves back to the user identifier the signup returned. -/
theorem C5_signup_login (users : UserStore) (body : SignupReq) (now : Nat)
    (identifier password : Option String) (tok uid : String)
    (hsig : (signup users body now).1 = SignupResult.ok tok uid)
    (hmatch : userMatches (mkSignupUser body now) identifier password = true)
    (hprior : ∀ u ∈ valuesOf users, userMatches u identifier password = false) :
    login (signup users body now).2 identifier password
      = LoginResult.ok (mkToken uid) uid ∧
    tok = mkToken uid ∧ tokenUserId (mkToken uid) = uid := by
  by_cases hv : signupValid body
  · have hrun : signup users body now
        = (SignupResult.ok (mkToken (mkSignupUser body now).id) (mkSignupUser body now).id,
           setKey users (mkSignupUser body now).id (mkSignupUser body now)) := by
      simp [signup, hv]
    rw [hrun] at hsig ⊢
    cases hsig
    refine ⟨?_, rfl, tokenUserId_mkToken _⟩
    show login (setKey users (mkSignupUser body now).id (mkSignupUser body now))
        identifier password
      = LoginResult.ok (mkToken (mkSignupUser body now).id) (mkSignupUser body now).id
    unfold login
    cases hfind : (valuesOf (setKey users (mkSignupUser body now).id
        (mkSignupUser body now))).find? (fun x => userMatches x identifier password) with
    | none =>
      exfalso
      have hmem := self_mem_valuesOf_setKey users (mkSignupUser body now).id
        (mkSignupUser body now)
      exact List.find?_eq_none.mp hfind _ hmem hmatch
    | some w =>
      have hw : userMatches w identifier password = true := by
        have := List.find?_some (p := fun x => userMatches x identifier password) hfind
        simpa using this
      have hwmem := List.mem_of_find?_eq_some hfind
      rcases mem_valuesOf_setKey hwmem with hold | rfl
      · exact absurd hw (by simp [hprior w hold])
      · rfl
  · rw [signup, if_neg hv] at hsig
    exact absurd hsig (by simp)

/-- Witness for C5: signup on an empty user table, then login with the same
email and password. -/
theorem C5_signup_login_witness :
    login (signup [] c5Sig 0).2 (some c5Mail) (some c5Pw)
      = LoginResult.ok (mkToken zeroId) zeroId := by
  have h := C5_signup_login [] c5Sig 0 (some c5Mail) (some c5Pw)
    (mkToken zeroId) zeroId (by decide) (by decide) (by decide)
  exact h.1

/-! ## C6 -/

/-- C6 counterexample: with an empty user table, the token `dev-ghost` — which
maps to no existing User — is accepted by issue creation, and the created
issue's userId references no User record. -/
theorem C6_counterexample :
    getKey ([] : UserStore) (tokenUserId ghostToken) = none ∧
    ghostRun.1 ≠ CreateResult.unauthorized ∧
    (createdIssue ghostRun.1).map Issue.userId = some (tokenUserId ghostToken) := by
  decide

/-- C6 amended: creation fails 401 exactly when the token is absent or does
not start with `dev-`; otherwise the created issue's userId is the rest of the
token after the marker, with no check that a User with that id exists. -/
theorem C6_token_resolution (token : Option String) (body : CreateReq) (now : Nat)
    (s : IssueStore) :
    ((postIssues token body now s).1 = CreateResult.unauthorized ↔
      tokenAccepted token = false) ∧
    (∀ (t : String) (i : Issue), token = some t →
      (postIssues token body now s).1 = CreateResult.ok i →
      i.userId = tokenUserId t) := by
  constructor
  · constructor
    · intro hu
      by_cases ha : tokenAccepted token = true
      · exfalso
        cases token with
        | none => simp [tokenAccepted] at ha
        | some t =>
          by_cases hb : (strFalsy body.description || body.priority.isNone) = true
          · simp [postIssues, ha, hb] at hu
          · simp [postIssues, ha, hb] at hu
      · simpa using ha
    · intro ha
      cases token with
      | none => simp [postIssues, tokenAccepted]
      | some t => simp [postIssues, ha]
  · intro t i ht hok
    subst ht
    by_cases ha : tokenAccepted (some t) = true
    · by_cases hb : (strFalsy body.description || body.priority.isNone) = true
      · simp [postIssues, ha, hb] at hok
      · simp [postIssues, ha, hb] at hok
        rw [← hok]
        rfl
    · simp [postIssues, ha] at hok

/-- Witness for C6: the ghost-token run is not rejected and carries userId
`ghost`. -/
theorem C6_token_resolution_witness :
    ghostRun.1 ≠ CreateResult.unauthorized ∧
    ghostIssue.userId = tokenUserId ghostToken := by
  have h := C6_token_resolution (some ghostToken) baseCreateReq 0 []
  exact ⟨fun hu => absurd (h.1.mp hu) (by decide),
    h.2 ghostToken ghostIssue rfl (by decide)⟩

/-! ## Handler store characterizations and timestamp lemmas -/

theorem mem_of_getKey_some {α : Type} {m : List (String × α)} {k : String} {v : α}
    (h : getKey m k = some v) : (k, v) ∈ m := by
  induction m with
  | nil => simp [getKey] at h
  | cons p ps ih =>
    obtain ⟨p1, p2⟩ := p
    simp only [getKey] at h
    by_cases hp : p1 = k
    · rw [if_pos hp] at h
      have hv : p2 = v := Option.some.inj h
      subst hp
      subst hv
      exact List.mem_cons_self _ _
    · rw [if_neg hp] at h
      exact List.mem_cons_of_mem _ (ih h)

theorem postIssues_store (token : Option String) (body : CreateReq) (now : Nat)
    (s : IssueStore) :
    (postIssues token body now s).2 = s ∨
    ∃ t, token = some t ∧
      (postIssues token body now s).2
        = setKey s (natToBase36 now) (mkNewIssue (tokenUserId t) body now) := by
  cases token with
  | none => exact Or.inl rfl
  | some t =>
    by_cases ha : tokenAccepted (some t) = true
    · by_cases hb : (strFalsy body.description || body.priority.isNone) = true
      · exact Or.inl (by simp [postIssues, ha, hb])
      · refine Or.inr ⟨t, rfl, ?_⟩
        simp only [postIssues, ha, hb]
        simp
        rfl
    · exact Or.inl (by simp [postIssues, ha])

theorem patchIssues_store (s : IssueStore) (id : String) (body : PatchReq) (now : Nat) :
    ((patchIssues s id body now).2 = s ∧ getKey s id = none) ∨
    ∃ old, getKey s id = some old ∧
      (patchIssues s id body now).2 = setKey s id (applyPatch old body now) := by
  cases hk : getKey s id with
  | none => exact Or.inl ⟨by simp [patchIssues, hk], rfl⟩
  | some old => exact Or.inr ⟨old, rfl, by simp [patchIssues, hk]⟩

theorem applyPatch_updatedAt (i : Issue) (body : PatchReq) (now : Nat) :
    (applyPatch i body now).updatedAt = now := rfl

theorem applyPatch_createdAt (i : Issue) (body : PatchReq) (now : Nat) :
    (applyPatch i body now).createdAt = i.createdAt := by
  unfold applyPatch
  cases body.status <;> cases body.department <;> cases body.priority <;> rfl

theorem escalateIssue_createdAt (now : Nat) (i : Issue) :
    (escalateIssue now i).createdAt = i.createdAt := by
  unfold escalateIssue
  split <;> rfl

theorem escalateIssue_updatedAt (now : Nat) (i : Issue) :
    escalateIssue now i = i ∨ (escalateIssue now i).updatedAt = now := by
  unfold escalateIssue
  split
  · exact Or.inr rfl
  · exact Or.inl rfl

theorem timeOK_mono {now now2 : Nat} {s : IssueStore} (h : timeOK now s = true)
    (hle : now ≤ now2) : timeOK now2 s = true := by
  rw [timeOK, List.all_eq_true]
  intro p hp
  have := List.all_eq_true.mp h p hp
  simp only [Bool.and_eq_true, decide_eq_true_eq] at this ⊢
  omega

theorem timeOK_setKey {now : Nat} {s : IssueStore} {k : String} {v : Issue}
    (h : timeOK now s = true) (hc : v.createdAt ≤ v.updatedAt)
    (hu : v.updatedAt ≤ now) : timeOK now (setKey s k v) = true := by
  rw [timeOK, List.all_eq_true]
  intro p hp
  rcases mem_setKey hp with hold | rfl
  · exact List.all_eq_true.mp h p hold
  · simp only [Bool.and_eq_true, decide_eq_true_eq]
    exact ⟨hc, hu⟩

/-! ## C8 -/

/-- C8: timestamp sanity — `createdAt ≤ updatedAt` for every stored issue and
nothing stamped in the future — is preserved by every operation (creation,
updateStatus, escalation tick) as long as the clock never goes backwards;
every record an operation changes is stamped with the operation's clock, so a
stored issue's `updatedAt` never decreases across a sequence of operations. -/
theorem C8_timestamps (now now2 : Nat) (op : Op) (s : IssueStore)
    (h : timeOK now s = true) (hle : now ≤ now2) :
    timeOK now2 (applyOp now2 op s) = true ∧
    ∀ (id : String) (i i2 : Issue), getKey s id = some i →
      getKey (applyOp now2 op s) id = some i2 →
      i.updatedAt ≤ i2.updatedAt ∧ (i2 ≠ i → i2.updatedAt = now2) := by
  have hget : ∀ (k : String) (v : Issue), getKey s k = some v →
      v.createdAt ≤ v.updatedAt ∧ v.updatedAt ≤ now := by
    intro k v hk
    have := List.all_eq_true.mp h _ (mem_of_getKey_some hk)
    simpa using this
  cases op with
  | create token body =>
    rcases postIssues_store token body now2 s with heq | ⟨t, htok, heq⟩
    · constructor
      · simp only [applyOp]
        rw [heq]
        exact timeOK_mono h hle
      · intro id i i2 h1 h2
        simp only [applyOp] at h2
        rw [heq, h1] at h2
        cases h2
        exact ⟨Nat.le_refl _, fun hne => absurd rfl hne⟩
    · constructor
      · simp only [applyOp]
        rw [heq]
        exact timeOK_setKey (timeOK_mono h hle) (Nat.le_refl now2) (Nat.le_refl now2)
      · intro id i i2 h1 h2
        simp only [applyOp] at h2
        rw [heq] at h2
        by_cases hid : id = natToBase36 now2
        · subst hid
          rw [getKey_setKey_self] at h2
          cases h2
          exact ⟨Nat.le_trans (hget _ _ h1).2 hle, fun _ => rfl⟩
        · rw [getKey_setKey_ne _ _ _ _ hid, h1] at h2
          cases h2
          exact ⟨Nat.le_refl _, fun hne => absurd rfl hne⟩
  | patch pid body =>
    rcases patchIssues_store s pid body now2 with ⟨heq, hnone⟩ | ⟨old, hold, heq⟩
    · constructor
      · simp only [applyOp]
        rw [heq]
        exact timeOK_mono h hle
      · intro id i i2 h1 h2
        simp only [applyOp] at h2
        rw [heq, h1] at h2
        cases h2
        exact ⟨Nat.le_refl _, fun hne => absurd rfl hne⟩
    · constructor
      · simp only [applyOp]
        rw [heq]
        refine timeOK_setKey (timeOK_mono h hle) ?_ ?_
        · rw [applyPatch_updatedAt, applyPatch_createdAt]
          exact Nat.le_trans (Nat.le_trans (hget _ _ hold).1 (hget _ _ hold).2) hle
        · rw [applyPatch_updatedAt]
      · intro id i i2 h1 h2
        simp only [applyOp] at h2
        rw [heq] at h2
        by_cases hid : id = pid
        · subst hid
          rw [getKey_setKey_self] at h2
          rw [hold] at h1
          cases h1
          cases h2
          rw [applyPatch_updatedAt]
          exact ⟨Nat.le_trans (hget _ _ hold).2 hle, fun _ => rfl⟩
        · rw [getKey_setKey_ne _ _ _ _ hid, h1] at h2
          cases h2
          exact ⟨Nat.le_refl _, fun hne => absurd rfl hne⟩
  | tick =>
    constructor
    · simp only [applyOp]
      rw [timeOK, List.all_eq_true]
      intro p hp
      rcases List.mem_map.mp hp with ⟨q, hq, rfl⟩
      have hqp := List.all_eq_true.mp h _ hq
      simp only [Bool.and_eq_true, decide_eq_true_eq] at hqp
      simp only [Bool.and_eq_true, decide_eq_true_eq]
      rw [escalateIssue_createdAt]
      rcases escalateIssue_updatedAt now2 q.2 with he | he
      · rw [he]
        exact ⟨hqp.1, Nat.le_trans hqp.2 hle⟩
      · rw [he]
        exact ⟨Nat.le_trans hqp.1 (Nat.le_trans hqp.2 hle), Nat.le_refl _⟩
    · intro id i i2 h1 h2
      simp only [applyOp, escalationTick] at h2
      rw [getKey_map_issue, h1] at h2
      cases h2
      rcases escalateIssue_updatedAt now2 i with he | he
      · rw [he]
        exact ⟨Nat.le_refl _, fun hne => absurd rfl hne⟩
      · rw [he]
        exact ⟨Nat.le_trans (hget _ _ h1).2 hle, fun _ => rfl⟩

/-- Witness for C8: patching the issue of `storeOne` at clock 2 keeps the
invariant and does not decrease the record's `updatedAt`. -/
theorem C8_timestamps_witness :
    timeOK 2 (applyOp 2 (Op.patch zeroId pResolved) storeOne) = true ∧
    storeOneIssue.updatedAt ≤ (applyPatch storeOneIssue pResolved 2).updatedAt := by
  have h := C8_timestamps 0 2 (Op.patch zeroId pResolved) storeOne (by decide) (by decide)
  exact ⟨h.1, (h.2 zeroId storeOneIssue (applyPatch storeOneIssue pResolved 2)
    (by decide) (by decide)).1⟩

/-! ## C9 -/

/-- C9 counterexample: two creations in the same clock millisecond receive the
same identifier, and the second overwrites the first record — the store stays
at one entry and its description changes. -/
theorem C9_counterexample :
    (valuesOf c9Run1.2).length = 1 ∧
    (getKey c9Run1.2 fiveId).map Issue.description = some "pothole on 5th" ∧
    (valuesOf c9Run2.2).length = 1 ∧
    (getKey c9Run2.2 fiveId).map Issue.description = some "garbage heap" := by
  decide

/-- C9 amended: issue identifiers are the base-36 rendering of the creation
clock, so creations at distinct milliseconds get distinct identifiers, and a
creation whose identifier is not yet in the store never overwrites any
existing record; two creations in the same millisecond, however, share an
identifier and the second replaces the first. -/
theorem C9_identifier_uniqueness (t1 t2 : Nat) (s : IssueStore)
    (token : Option String) (body : CreateReq) (now : Nat)
    (hne : t1 ≠ t2) (hfresh : getKey s (natToBase36 now) = none) :
    natToBase36 t1 ≠ natToBase36 t2 ∧
    ∀ (k : String) (v : Issue), getKey s k = some v →
      getKey (postIssues token body now s).2 k = some v := by
  constructor
  · exact fun he => hne (natToBase36_injective he)
  · intro k v hk
    rcases postIssues_store token body now s with heq | ⟨t, htok, heq⟩
    · rw [heq]
      exact hk
    · rw [heq, setKey_of_getKey_none s _ _ hfresh]
      exact getKey_append_left s _ k v hk

/-- Witness for C9: distinct clocks 0 and 1 give distinct ids, and a creation
at the fresh clock 7 preserves the record stored under id `5`. -/
theorem C9_identifier_uniqueness_witness :
    natToBase36 0 ≠ natToBase36 1 ∧
    getKey (postIssues (some devTokA) c2SecondReq 7 c9Run1.2).2 fiveId
      = some c9StoredIssue := by
  have h := C9_identifier_uniqueness 0 1 c9Run1.2 (some devTokA) c2SecondReq 7
    (by decide) (by decide)
  exact ⟨h.1, h.2 fiveId c9StoredIssue (by decide)⟩

end CivicIssues
